import Mathlib

/-!
Verification of the bounded per-user conversation history and the glue code
of the medical-questions chat bot (src/index.js).  The conversation store,
the reply orchestration in gerarRespostaGemini, the message_create handler
guard and the tri-state status route are embedded as pure functions; the
external model client is a parameter (some reply on success, none when the
call throws).
-/

namespace BotProvas

/-- One conversation entry as kept in a user history and sent to the model
API.  The source stores objects of shape role plus a one-element parts array
holding a single text; the parts array is flattened to one text field. -/
structure Entry where
  role : String
  text : String
deriving DecidableEq

/-- The fixed system instruction text PROMPT_MEDICINA of the source,
a template literal beginning and ending with a newline. -/
def PROMPT_MEDICINA : String := "
Você é um preceptor médico de altíssimo nível, especialista em Urgência, Emergência, Cirurgia e Terapia Intensiva.
O usuário é um estudante ou médico buscando informações rápidas.

OBJETIVO: Fornecer respostas precisas, diretas e otimizadas estritamente para leitura no WHATSAPP.

🚨 REGRAS RÍGIDAS DE FORMATAÇÃO (LIMITAÇÕES DO WHATSAPP) 🚨
1. PROIBIDO TABELAS E HTML: O WhatsApp NÃO suporta tabelas Markdown (| coluna |), cabeçalhos com hashtag (###), nem tags HTML como <br>. NUNCA os utilize.
2. NEGRITO: Para destacar palavras, use apenas UM asterisco de cada lado. Exemplo: *Cardiomiopatia*. NUNCA use dois asteriscos (**).
3. ITÁLICO: Use underline. Exemplo: _texto_.
4. ESTRUTURAÇÃO SEM TABELAS: Se precisar comparar doenças (ex: tipos de cardiomiopatias), crie um bloco de texto para cada uma usando listas e emojis, NUNCA desenhe uma tabela.
5. TÍTULOS: Como não há tags de cabeçalho, faça títulos usando letras maiúsculas, emojis e negrito. Exemplo: 🫀 *CLASSIFICAÇÃO DAS CARDIOMIOPATIAS PRIMÁRIAS*
6. QUEBRAS DE LINHA: Use a quebra de linha normal (pular linha), nunca escreva <br>.

DIRETRIZES DE CONTEÚDO MÉDICO:
1. VÁ DIRETO AO PONTO: Zero enrolação. Sem \"Olá\", sem introduções.
2. SCANNEABILIDADE: O usuário está num plantão ou fazendo prova. Use tópicos curtos (com o símbolo • ou -).
3. CONDUTAS E ALGORITMOS: Use fluxogramas em texto claro. Exemplo: *Passo 1* ➔ *Passo 2* ➔ *Passo 3*.
4. QUESTÕES DE PROVA: Dê o GABARITO imediatamente na primeira linha. Em seguida, justifique rapidamente porque a certa é a certa, e o erro das outras.
5. MNEMÔNICOS: Sempre que existir um mnemônico clássico, destaque-o no final com o emoji 🧠.
"

/-- The first seeded history entry: the fixed instruction preamble.  The spec
names this the system-setup entry; the source encodes it as an entry with API
role user whose text is the instruction prompt behind a fixed prefix. -/
def systemSetupEntry : Entry :=
  ⟨"user", "Instruções do Sistema: " ++ PROMPT_MEDICINA⟩

/-- The second seeded history entry: the synthetic model acknowledgment. -/
def ackEntry : Entry :=
  ⟨"model", "Compreendido. Aguardando a primeira dúvida médica ou questão."⟩

/-- The two-entry transcript every new user starts with. -/
def seedTranscript : List Entry := [systemSetupEntry, ackEntry]

/-- The in-memory chatHistory map from user id to transcript. -/
abbrev ChatHistory := String → Option (List Entry)

/-- The empty map: the state right after process start. -/
def emptyHistory : ChatHistory := fun _ => none

/-- Map update, modelling a chatHistory.set call. -/
def setHistory (m : ChatHistory) (userId : String) (v : List Entry) : ChatHistory :=
  fun k => if k = userId then some v else m k

/-- Lazy seeding on first contact: when chatHistory has no entry for userId,
store the two-entry seed transcript. -/
def ensureSeeded (chatHistory : ChatHistory) (userId : String) : ChatHistory :=
  if (chatHistory userId).isSome then chatHistory
  else setHistory chatHistory userId seedTranscript

/-- The getOrCreate operation of the spec: the map after lazy seeding together
with the transcript now surely present for userId. -/
def getOrCreate (chatHistory : ChatHistory) (userId : String) :
    ChatHistory × List Entry :=
  (ensureSeeded chatHistory userId,
   ((ensureSeeded chatHistory userId) userId).getD [])

/-- The two push calls of the success path: append the user turn and then the
model turn at the end of the history. -/
def pushTurn (historico : List Entry) (textoUsuario respostaText : String) :
    List Entry :=
  historico ++ [⟨"user", textoUsuario⟩, ⟨"model", respostaText⟩]

/-- The eviction rule: when the history length exceeds 30, splice(2, 2)
removes the two entries at indices 2 and 3, keeping the first two entries and
everything from index 4 on. -/
def evictIfOver (historico : List Entry) : List Entry :=
  if 30 < historico.length then historico.take 2 ++ historico.drop 4
  else historico

/-- The fixed user-facing fallback string returned when the model call fails. -/
def fallbackMessage : String :=
  "⚠️ Erro ao processar com a IA. Tente novamente em alguns instantes."

/-- gerarRespostaGemini: seed the user if absent, call the model (its outcome
is the modelResult parameter: some reply text on success, none when the call
throws), on success push the user and model turns and apply eviction, giving
back the reply text; on failure leave every history untouched and give back
the fallback string. -/
def gerarRespostaGemini (chatHistory : ChatHistory) (userId textoUsuario : String)
    (modelResult : Option String) : ChatHistory × String :=
  match modelResult with
  | some respostaText =>
      (setHistory (getOrCreate chatHistory userId).1 userId
        (evictIfOver
          (pushTurn (getOrCreate chatHistory userId).2 textoUsuario respostaText)),
       respostaText)
  | none => ((getOrCreate chatHistory userId).1, fallbackMessage)

/-- An inbound message event as delivered by the messaging client.  The field
sender models the from field of the event (from is a reserved word). -/
structure Msg where
  sender : String
  body : String
  fromMe : Bool
  isStatus : Bool

/-- The message_create handler: self-sent and status events return at once,
touching nothing and sending nothing; any other event is answered with the
reply produced by gerarRespostaGemini (modelled as some reply). -/
def onMessageCreate (chatHistory : ChatHistory) (msg : Msg)
    (modelResult : Option String) : ChatHistory × Option String :=
  if msg.fromMe || msg.isStatus then (chatHistory, none)
  else
    ((gerarRespostaGemini chatHistory msg.sender msg.body modelResult).1,
     some (gerarRespostaGemini chatHistory msg.sender msg.body modelResult).2)

/-- One handled turn seen from a single user transcript: the inbound text
together with the model outcome (some reply, or none for a failure). -/
abbrev Turn := String × Option String

/-- Effect of one handled turn on that user transcript. -/
def stepTranscript (historico : List Entry) (turn : Turn) : List Entry :=
  match turn.2 with
  | some respostaText => evictIfOver (pushTurn historico turn.1 respostaText)
  | none => historico

/-- Transcript of one user after a sequence of handled turns, starting from
the seed placed at first contact. -/
def runTranscript (turns : List Turn) : List Entry :=
  turns.foldl stepTranscript seedTranscript

/-- Roles alternate throughout a transcript: user at even indices, model at
odd indices (the seeded preamble itself carries API role user at index 0 and
the acknowledgment carries role model at index 1). -/
def AltRoles (historico : List Entry) : Prop :=
  ∀ i e, historico[i]? = some e →
    e.role = if i % 2 = 0 then "user" else "model"

/-- The invariant holding of every reachable transcript: at least the two
seeded entries, at most 30 entries, even length, the seeded pair intact at
the front, and alternating roles. -/
def GoodTranscript (historico : List Entry) : Prop :=
  2 ≤ historico.length ∧ historico.length ≤ 30 ∧ historico.length % 2 = 0 ∧
  historico.take 2 = seedTranscript ∧ AltRoles historico

/-- A concrete 31-entry transcript used to exercise the eviction rule. -/
def longHistory : List Entry := List.replicate 31 ⟨"user", "x"⟩

/-- JS truthiness of the latestQrCode variable: null and the empty string are
falsy, any other string is truthy. -/
def jsTruthy : Option String → Bool
  | none => false
  | some s => !(s == "")

/-- The meta tag giving the 3-second auto refresh of the status page. -/
def metaRefresh : String := "<meta http-equiv=\"refresh\" content=\"3\">"

/-- The shared style block of the status pages (literal braces written as
their escape codes). -/
def style : String :=
  "<style>body\x7bfont-family:sans-serif;text-align:center;padding-top:50px;background-color:#f0f4f8;\x7d</style>"

/-- The page served once the client is connected: no auto refresh. -/
def connectedPage : String :=
  "\n            <html><head>" ++ style ++
    "</head>\n            <body>\n                <h1 style=\"color: #2c3e50;\">⚕️ Bot Médico Online!</h1>\n                <p>O sistema está conectado ao seu WhatsApp.</p>\n            </body></html>\n        "

/-- The page served while a QR code is pending: auto refresh plus the code
image, whose source is the stored data url. -/
def qrPage (latestQrCode : String) : String :=
  "\n            <html><head>" ++ metaRefresh ++ style ++
    "</head>\n            <body>\n                <h1 style=\"color: #2c3e50;\">Conecte o Bot Médico</h1>\n                <p>Escaneie o QR Code abaixo:</p>\n                <img src=\"" ++
    latestQrCode ++
    "\" width=\"300\" style=\"border-radius: 10px; box-shadow: 0 4px 8px rgba(0,0,0,0.1);\"/>\n            </body></html>\n        "

/-- The page served while no code has arrived yet: auto refresh only. -/
def waitingPage : String :=
  "\n            <html><head>" ++ metaRefresh ++ style ++
    "</head>\n            <body>\n                <h1>Aguardando QR Code...</h1>\n            </body></html>\n        "

/-- The single GET route of the status server: the connected page when the
stored value is the CONNECTED marker, the QR page when a code string is
present (and truthy), and the waiting page otherwise. -/
def statusRoute (latestQrCode : Option String) : String :=
  if latestQrCode = some "CONNECTED" then connectedPage
  else if jsTruthy latestQrCode then qrPage (latestQrCode.getD "")
  else waitingPage

/-! Claims C3, C4, C5, C6, C10: the orchestration paths of a single call. -/

/-- C4: for a user never seen before, getOrCreate returns a transcript of
length exactly 2 whose entry 0 is the system-setup preamble entry and whose
entry 1 has role model. -/
theorem getOrCreate_seeds_two_entries (chatHistory : ChatHistory) (userId : String)
    (hu : chatHistory userId = none) :
    (getOrCreate chatHistory userId).2 = seedTranscript ∧
    (getOrCreate chatHistory userId).2.length = 2 ∧
    (getOrCreate chatHistory userId).2[0]? = some systemSetupEntry ∧
    ((getOrCreate chatHistory userId).2[1]?).map Entry.role = some "model" := by
  have h2 : (getOrCreate chatHistory userId).2 = seedTranscript := by
    simp [getOrCreate, ensureSeeded, hu, setHistory]
  refine ⟨h2, ?_, ?_, ?_⟩ <;> rw [h2] <;> rfl

/-- Witness for C4 at a concrete fresh user. -/
theorem getOrCreate_seeds_two_entries_witness :
    (getOrCreate emptyHistory "ana").2 = seedTranscript ∧
    (getOrCreate emptyHistory "ana").2.length = 2 ∧
    (getOrCreate emptyHistory "ana").2[0]? = some systemSetupEntry ∧
    ((getOrCreate emptyHistory "ana").2[1]?).map Entry.role = some "model" :=
  getOrCreate_seeds_two_entries emptyHistory "ana" rfl

/-- C5: on model success the handler returns exactly the reply text, stores
for the user the old transcript with the user turn then the model turn
appended (then the eviction rule applied), and the stored length is the old
length plus two, except that crossing the 30-entry threshold gives back the
old length (plus two then minus two). -/
theorem success_appends_turns_returns_reply (chatHistory : ChatHistory)
    (userId textoUsuario respostaText : String) :
    (gerarRespostaGemini chatHistory userId textoUsuario (some respostaText)).2 =
      respostaText ∧
    (gerarRespostaGemini chatHistory userId textoUsuario (some respostaText)).1 userId =
      some (evictIfOver
        (pushTurn (getOrCreate chatHistory userId).2 textoUsuario respostaText)) ∧
    (evictIfOver
        (pushTurn (getOrCreate chatHistory userId).2 textoUsuario respostaText)).length =
      if 30 < (getOrCreate chatHistory userId).2.length + 2 then
        (getOrCreate chatHistory userId).2.length
      else (getOrCreate chatHistory userId).2.length + 2 := by
  refine ⟨rfl, ?_, ?_⟩
  · simp [gerarRespostaGemini, setHistory]
  · have hlen : (pushTurn (getOrCreate chatHistory userId).2 textoUsuario
        respostaText).length = (getOrCreate chatHistory userId).2.length + 2 := by
      simp [pushTurn]
    unfold evictIfOver
    rw [hlen]
    by_cases hc : 30 < (getOrCreate chatHistory userId).2.length + 2
    · rw [if_pos hc, if_pos hc]
      simp [hlen]
      omega
    · rw [if_neg hc, if_neg hc, hlen]

/-- C3: when the model call fails for a user already in the store, the whole
store is unchanged, that user transcript is exactly what it was, and the
fixed fallback string is returned instead of an error. -/
theorem model_failure_leaves_history_unchanged (chatHistory : ChatHistory)
    (userId textoUsuario : String) (historico : List Entry)
    (hu : chatHistory userId = some historico) :
    gerarRespostaGemini chatHistory userId textoUsuario none =
      (chatHistory, fallbackMessage) ∧
    (gerarRespostaGemini chatHistory userId textoUsuario none).1 userId =
      some historico := by
  have hseed : ensureSeeded chatHistory userId = chatHistory := by
    simp [ensureSeeded, hu]
  exact ⟨by simp [gerarRespostaGemini, getOrCreate, hseed],
    by simp [gerarRespostaGemini, getOrCreate, hseed, hu]⟩

/-- Witness for C3 at a concrete seeded user. -/
theorem model_failure_leaves_history_unchanged_witness :
    gerarRespostaGemini (setHistory emptyHistory "ana" seedTranscript) "ana" "olá" none =
      (setHistory emptyHistory "ana" seedTranscript, fallbackMessage) ∧
    (gerarRespostaGemini (setHistory emptyHistory "ana" seedTranscript)
        "ana" "olá" none).1 "ana" = some seedTranscript :=
  model_failure_leaves_history_unchanged (setHistory emptyHistory "ana" seedTranscript)
    "ana" "olá" seedTranscript (by simp [setHistory])

/-- C10: a failing model call for a user never seen before still stores the
untouched two-entry seed for that user (creation happens before the model
call), and the fallback string is returned. -/
theorem failure_path_still_seeds_user (chatHistory : ChatHistory)
    (userId textoUsuario : String) (hu : chatHistory userId = none) :
    (gerarRespostaGemini chatHistory userId textoUsuario none).1 userId =
      some seedTranscript ∧
    (gerarRespostaGemini chatHistory userId textoUsuario none).2 = fallbackMessage := by
  constructor
  · simp [gerarRespostaGemini, getOrCreate, ensureSeeded, hu, setHistory]
  · rfl

/-- Witness for C10 at a concrete fresh user. -/
theorem failure_path_still_seeds_user_witness :
    (gerarRespostaGemini emptyHistory "ana" "olá" none).1 "ana" =
      some seedTranscript ∧
    (gerarRespostaGemini emptyHistory "ana" "olá" none).2 = fallbackMessage :=
  failure_path_still_seeds_user emptyHistory "ana" "olá" rfl

/-- C6: an event flagged as self-sent or as a status update is dropped before
any model work: the store is unchanged and no reply is produced. -/
theorem self_and_status_events_ignored (chatHistory : ChatHistory) (msg : Msg)
    (modelResult : Option String)
    (hm : msg.fromMe = true ∨ msg.isStatus = true) :
    onMessageCreate chatHistory msg modelResult = (chatHistory, none) := by
  unfold onMessageCreate
  rcases hm with h | h <;> simp [h]

/-- Witness for C6 at a concrete self-sent event. -/
theorem self_and_status_events_ignored_witness :
    onMessageCreate emptyHistory ⟨"5511", "oi", true, false⟩ none =
      (emptyHistory, none) :=
  self_and_status_events_ignored emptyHistory ⟨"5511", "oi", true, false⟩ none
    (Or.inl rfl)

/-! Claims C1, C2, C7, C9: the eviction rule and the reachable-transcript
invariants, established by induction along the sequence of handled turns. -/

lemma altRoles_seed : AltRoles seedTranscript := by
  intro i e hi
  match i with
  | 0 =>
    have h0 : seedTranscript[0]? = some systemSetupEntry := rfl
    rw [h0] at hi
    rw [(Option.some.inj hi).symm]
    rfl
  | 1 =>
    have h1 : seedTranscript[1]? = some ackEntry := rfl
    rw [h1] at hi
    rw [(Option.some.inj hi).symm]
    rfl
  | (n + 2) =>
    have hn : seedTranscript[n + 2]? = none := rfl
    rw [hn] at hi
    cases hi

lemma altRoles_push (historico : List Entry) (heven : historico.length % 2 = 0)
    (ha : AltRoles historico) (textoUsuario respostaText : String) :
    AltRoles (pushTurn historico textoUsuario respostaText) := by
  intro i e hi
  unfold pushTurn at hi
  rcases Nat.lt_or_ge i historico.length with hlt | hge
  · rw [List.getElem?_append_left hlt] at hi
    exact ha i e hi
  · rw [List.getElem?_append_right hge] at hi
    rcases hsub : i - historico.length with _ | n
    · rw [hsub] at hi
      have hip : i % 2 = 0 := by omega
      rw [(Option.some.inj hi).symm, hip]
      rfl
    · rcases n with _ | m
      · rw [hsub] at hi
        have hip : i % 2 = 1 := by omega
        rw [(Option.some.inj hi).symm, hip]
        rfl
      · rw [hsub] at hi
        simp at hi

lemma altRoles_evict (historico : List Entry) (h2 : 2 ≤ historico.length)
    (ha : AltRoles historico) :
    AltRoles (historico.take 2 ++ historico.drop 4) := by
  have hlen2 : (historico.take 2).length = 2 := by
    rw [List.length_take]
    omega
  intro i e hi
  rcases Nat.lt_or_ge i (historico.take 2).length with hlt | hge
  · rw [List.getElem?_append_left hlt] at hi
    rw [hlen2] at hlt
    rw [List.getElem?_take_of_lt hlt] at hi
    exact ha i e hi
  · rw [List.getElem?_append_right hge] at hi
    rw [List.getElem?_drop] at hi
    have hrole := ha _ _ hi
    have hmod : (4 + (i - (historico.take 2).length)) % 2 = i % 2 := by
      rw [hlen2]
      rw [hlen2] at hge
      omega
    rw [hmod] at hrole
    exact hrole

lemma take_two_push (historico : List Entry) (h2 : 2 ≤ historico.length)
    (textoUsuario respostaText : String) :
    (pushTurn historico textoUsuario respostaText).take 2 = historico.take 2 := by
  unfold pushTurn
  exact List.take_append_of_le_length h2

lemma take_two_evict (historico : List Entry) (h2 : 2 ≤ historico.length) :
    (historico.take 2 ++ historico.drop 4).take 2 = historico.take 2 := by
  have hlen2 : 2 ≤ (historico.take 2).length := by
    rw [List.length_take]
    omega
  rw [List.take_append_of_le_length hlen2, List.take_take, min_self]

lemma goodTranscript_step (historico : List Entry) (hg : GoodTranscript historico)
    (turn : Turn) : GoodTranscript (stepTranscript historico turn) := by
  obtain ⟨hmin, hmax, heven, htake, halt⟩ := hg
  rcases turn with ⟨textoUsuario, mr⟩
  rcases mr with _ | respostaText
  · exact ⟨hmin, hmax, heven, htake, halt⟩
  · show GoodTranscript (evictIfOver (pushTurn historico textoUsuario respostaText))
    have hplen : (pushTurn historico textoUsuario respostaText).length =
        historico.length + 2 := by
      simp [pushTurn]
    unfold evictIfOver
    by_cases hc : 30 < (pushTurn historico textoUsuario respostaText).length
    · rw [if_pos hc]
      rw [hplen] at hc
      refine ⟨?_, ?_, ?_, ?_, ?_⟩
      · rw [List.length_append, List.length_take, hplen]
        omega
      · rw [List.length_append, List.length_take, List.length_drop, hplen]
        omega
      · rw [List.length_append, List.length_take, List.length_drop, hplen]
        omega
      · rw [take_two_evict _ (by rw [hplen]; omega),
          take_two_push historico hmin]
        exact htake
      · exact altRoles_evict _ (by rw [hplen]; omega)
          (altRoles_push historico heven halt textoUsuario respostaText)
    · rw [if_neg hc]
      rw [hplen] at hc
      refine ⟨?_, ?_, ?_, ?_, ?_⟩
      · rw [hplen]
        omega
      · rw [hplen]
        omega
      · rw [hplen]
        omega
      · rw [take_two_push historico hmin]
        exact htake
      · exact altRoles_push historico heven halt textoUsuario respostaText

lemma goodTranscript_foldl (turns : List Turn) :
    ∀ historico, GoodTranscript historico →
      GoodTranscript (turns.foldl stepTranscript historico) := by
  induction turns with
  | nil =>
    intro historico hg
    exact hg
  | cons turn rest ih =>
    intro historico hg
    exact ih _ (goodTranscript_step historico hg turn)

lemma goodTranscript_seed : GoodTranscript seedTranscript :=
  ⟨by simp [seedTranscript], by simp [seedTranscript], by simp [seedTranscript],
   rfl, altRoles_seed⟩

lemma goodTranscript_run (turns : List Turn) :
    GoodTranscript (runTranscript turns) :=
  goodTranscript_foldl turns seedTranscript goodTranscript_seed

/-- C1: after any sequence of handled turns (with arbitrary successes and
failures), the transcript holds at most 30 entries, and its first two entries
are still exactly the seeded system-setup preamble and the acknowledgment, no
matter how many evictions have fired. -/
theorem transcript_bounded_preamble_fixed (turns : List Turn) :
    (runTranscript turns).length ≤ 30 ∧
    (runTranscript turns).take 2 = seedTranscript ∧
    (runTranscript turns)[0]? = some systemSetupEntry ∧
    (runTranscript turns)[1]? = some ackEntry := by
  have hg := goodTranscript_run turns
  refine ⟨hg.2.1, hg.2.2.2.1, ?_, ?_⟩
  · have h0 : ((runTranscript turns).take 2)[0]? = (runTranscript turns)[0]? :=
      List.getElem?_take_of_lt (by omega)
    rw [← h0, hg.2.2.2.1]
    rfl
  · have h1 : ((runTranscript turns).take 2)[1]? = (runTranscript turns)[1]? :=
      List.getElem?_take_of_lt (by omega)
    rw [← h1, hg.2.2.2.1]
    rfl

/-- C7: in every reachable transcript the entries alternate roles, user at
even indices and model at odd ones; since eviction drops the aligned pair at
indices 2 and 3, no orphaned single turn ever appears. -/
theorem transcript_roles_alternate (turns : List Turn) (i : Nat) (e : Entry)
    (_h2 : 2 ≤ i) (he : (runTranscript turns)[i]? = some e) :
    e.role = if i % 2 = 0 then "user" else "model" :=
  (goodTranscript_run turns).2.2.2.2 i e he

/-- Witness for C7: entry 2 after one successful turn is the user turn. -/
theorem transcript_roles_alternate_witness :
    (⟨"user", "olá"⟩ : Entry).role = if 2 % 2 = 0 then "user" else "model" :=
  transcript_roles_alternate [("olá", some "oi")] 2 ⟨"user", "olá"⟩
    (by omega) rfl

/-- C9: every reachable transcript has even length bounded by 30, so the odd
lengths 29 and 31 never occur during execution, and length 30 is reached, for
example after fourteen successful turns. -/
theorem transcript_length_even_and_bounded :
    (∀ turns : List Turn,
      (runTranscript turns).length % 2 = 0 ∧
      (runTranscript turns).length ≤ 30 ∧
      (runTranscript turns).length ≠ 29 ∧
      (runTranscript turns).length ≠ 31) ∧
    (runTranscript (List.replicate 14 ("a", some "b"))).length = 30 := by
  constructor
  · intro turns
    have hg := goodTranscript_run turns
    have heven := hg.2.2.1
    have hmax := hg.2.1
    exact ⟨heven, hmax, by omega, by omega⟩
  · rfl

/-- C2: whenever an append leaves more than 30 entries, eviction removes
exactly the two consecutive entries at indices 2 and 3; at length 31 the
result has length 29, keeps entries 0 and 1 unchanged, and its entries 2 and
3 are the previous entries 4 and 5. -/
theorem eviction_splices_indices_two_three (historico : List Entry) :
    (30 < historico.length →
      evictIfOver historico = historico.take 2 ++ historico.drop 4) ∧
    (historico.length = 31 →
      (evictIfOver historico).length = 29 ∧
      (evictIfOver historico).take 2 = historico.take 2 ∧
      (evictIfOver historico)[2]? = historico[4]? ∧
      (evictIfOver historico)[3]? = historico[5]?) := by
  constructor
  · intro hc
    unfold evictIfOver
    rw [if_pos hc]
  · intro h31
    have hc : 30 < historico.length := by omega
    have hev : evictIfOver historico = historico.take 2 ++ historico.drop 4 := by
      unfold evictIfOver
      rw [if_pos hc]
    have hlen2 : (historico.take 2).length = 2 := by
      rw [List.length_take]
      omega
    refine ⟨?_, ?_, ?_, ?_⟩
    · rw [hev, List.length_append, List.length_take, List.length_drop]
      omega
    · rw [hev]
      exact take_two_evict historico (by omega)
    · rw [hev, List.getElem?_append_right (le_of_eq hlen2), List.getElem?_drop,
        hlen2]
    · rw [hev, List.getElem?_append_right (by rw [hlen2]; omega : (historico.take 2).length ≤ 3),
        List.getElem?_drop, hlen2]

/-- Witness for C2 at a concrete 31-entry transcript. -/
theorem eviction_splices_indices_two_three_witness :
    (evictIfOver longHistory = longHistory.take 2 ++ longHistory.drop 4) ∧
    ((evictIfOver longHistory).length = 29 ∧
      (evictIfOver longHistory).take 2 = longHistory.take 2 ∧
      (evictIfOver longHistory)[2]? = longHistory[4]? ∧
      (evictIfOver longHistory)[3]? = longHistory[5]?) :=
  ⟨(eviction_splices_indices_two_three longHistory).1 (by simp [longHistory]),
   (eviction_splices_indices_two_three longHistory).2 (by simp [longHistory])⟩

set_option maxRecDepth 8192 in
/-- C8: the status route serves exactly one of three pages depending on the
connection state; the two not-connected pages embed the 3-second meta auto
refresh tag, and the connected page does not contain it anywhere. -/
theorem statusRoute_tristate_refresh :
    statusRoute none = waitingPage ∧
    statusRoute (some "CONNECTED") = connectedPage ∧
    (∀ s : String, s ≠ "CONNECTED" → s ≠ "" → statusRoute (some s) = qrPage s) ∧
    metaRefresh = "<meta http-equiv=\"refresh\" content=\"3\">" ∧
    (∃ a b : List Char, waitingPage.data = a ++ (metaRefresh.data ++ b)) ∧
    (∀ s : String, ∃ a b : List Char,
      (qrPage s).data = a ++ (metaRefresh.data ++ b)) ∧
    ¬ (∃ a b : List Char, connectedPage.data = a ++ (metaRefresh.data ++ b)) := by
  refine ⟨rfl, by simp [statusRoute], ?_, rfl, ?_, ?_, ?_⟩
  · intro s hs hne
    simp [statusRoute, jsTruthy, hs, hne]
  · exact ⟨("\n            <html><head>").data,
      (style ++ "</head>\n            <body>\n                <h1>Aguardando QR Code...</h1>\n            </body></html>\n        ").data,
      rfl⟩
  · intro s
    refine ⟨("\n            <html><head>").data,
      (style ++
        ("</head>\n            <body>\n                <h1 style=\"color: #2c3e50;\">Conecte o Bot Médico</h1>\n                <p>Escaneie o QR Code abaixo:</p>\n                <img src=\"" ++
          (s ++
            "\" width=\"300\" style=\"border-radius: 10px; box-shadow: 0 4px 8px rgba(0,0,0,0.1);\"/>\n            </body></html>\n        "))).data,
      ?_⟩
    simp [qrPage, List.append_assoc]
  · rintro ⟨a, b, hab⟩
    have hq : ('q' : Char) ∈ metaRefresh.data := by decide
    have hmem : ('q' : Char) ∈ connectedPage.data := by
      rw [hab]
      exact List.mem_append_right a (List.mem_append_left b hq)
    have hnone : ('q' : Char) ∉ connectedPage.data := by decide
    exact hnone hmem

end BotProvas
